import Mathlib

/-!
Verification development for the scg-database repository (next-trace/scg-database).

The definitions below are a shallow embedding of the Go source:

* the type-bridging subsystem (src/adapter/gorm/utils.go: convertModelsToSlice,
  convertSliceToModels, getModelType, applyOrderBy, validateColumnName,
  validateOrderDirection, validateAndApplyLimit, validateAndApplyOffset,
  optimizeCreateOperation);
* the repository fluent builder (src/unnamed/part_000: package gorm, type repository);
* the gorm query builder (src/adapter/gorm/query_builder.go: gormQueryBuilder);
* the registries (src/unnamed/part_008: RegisterAdapter/GetAdapter, and
  src/db/query_builder_registry.go: queryBuilderRegistry);
* the connect facade (src/db/connection.go: Connect) with the error
  constructors of src/db/options.go.

Conventions of the embedding:

* Go machine integers that are only compared and stored (limit, offset,
  batch size) are modelled as unbounded Int: the source only compares them
  with 0 and never does arithmetic that could wrap.
* A Go pointer-receiver method is embedded as a function that returns the
  pair (receiver state after the call, returned value).  The source bodies
  of the fluent builder methods contain no assignment through the receiver,
  which the embedding makes explicit by returning the receiver unchanged in
  the first component; a reviewer can check each body against the Go source.
* Runtime type information is modelled by StructType: a named struct type
  together with two Booleans recording whether its value method set and its
  pointer method set satisfy the contract.Model interface (in Go a method
  declared on the pointer receiver is absent from the value method set, so
  a value-typed item fails the type assertion item.(contract.Model)).
* fmt.Errorf error values are modelled by the inductive GoErr, one
  constructor per distinct format string of the source, carrying the
  formatted arguments.
-/

/-! ### Go string primitives (strings.TrimSpace, strings.ToUpper on ASCII) -/

/-- The set of runes trimmed by Go strings.TrimSpace (unicode.IsSpace):
0x09-0x0D, space, NEL, NBSP, OGHAM space, the U+2000-200A range,
LINE/PARAGRAPH SEPARATOR, NARROW NBSP, MMSP, IDEOGRAPHIC SPACE. -/
def goIsSpace (c : Char) : Bool :=
  (9 ≤ c.toNat && c.toNat ≤ 13) || c.toNat = 32 || c.toNat = 0x85 || c.toNat = 0xA0 ||
  c.toNat = 0x1680 || (0x2000 ≤ c.toNat && c.toNat ≤ 0x200A) ||
  c.toNat = 0x2028 || c.toNat = 0x2029 || c.toNat = 0x202F || c.toNat = 0x205F ||
  c.toNat = 0x3000

/-- Go strings.TrimSpace: drop leading and trailing white space. -/
def goTrimSpace (s : String) : String :=
  ⟨((s.data.dropWhile goIsSpace).reverse.dropWhile goIsSpace).reverse⟩

/-- Go unicode.ToUpper restricted to the ASCII range (identity elsewhere).
The source only ever compares the result with the ASCII literals
"ASC" and "DESC", so the ASCII fragment is the relevant one. -/
def goToUpperChar (c : Char) : Char :=
  if 'a' ≤ c && c ≤ 'z' then Char.ofNat (c.toNat - 32) else c

/-- Go strings.ToUpper (ASCII fragment, see goToUpperChar). -/
def goToUpper (s : String) : String :=
  ⟨s.data.map goToUpperChar⟩

/-! ### Runtime type universe for the bridging subsystem -/

/-- A named Go struct type, with the two facts about its method sets that
the bridge's type assertions depend on: whether the value method set and
whether the pointer method set satisfy contract.Model.  In Go the pointer
method set is a superset of the value method set. -/
structure StructType where
  name : String
  valueImplementsModel : Bool
  ptrImplementsModel : Bool
deriving DecidableEq

/-- A Go struct value: its type and an opaque field map. -/
structure StructVal where
  typ : StructType
  fields : List (String × String)
deriving DecidableEq

/-- An element of a Go []contract.Model: the nil interface, an interface
holding a pointer to a struct value, or an interface holding a struct value. -/
inductive ModelIface where
  | nil
  | ptr (v : StructVal)
  | val (v : StructVal)
deriving DecidableEq

/-- A reflect.Type restricted to what the bridge meets: a struct type or a
pointer to one. -/
inductive GoType where
  | struct (t : StructType)
  | ptr (t : StructType)
deriving DecidableEq

/-- The source's pointer stripping: if modelType.Kind() == reflect.Ptr then
modelType = modelType.Elem(). -/
def GoType.elemStruct : GoType → StructType
  | .struct t => t
  | .ptr t => t

/-- reflect.ValueOf(model) followed by .Elem() when the kind is Ptr:
the underlying struct value of a non-nil entity. -/
def ModelIface.deref : ModelIface → Option StructVal
  | .nil => none
  | .ptr v => some v
  | .val v => some v

/-- Total variant of ModelIface.deref used in statements about lists whose
elements are known to be non-nil (the default is never reached there). -/
def ModelIface.underlying : ModelIface → StructVal
  | .nil => ⟨⟨"", false, false⟩, []⟩
  | .ptr v => v
  | .val v => v

/-- The distinct fmt.Errorf/errors.New values of the embedded source, one
constructor per format string, carrying the formatted arguments. -/
inductive GoErr where
  | emptyModelsSlice
  | nilModelAt (i : Nat)
  | notAssignableAt (i : Nat) (expected : String)
  | assertModelFailedAt (i : Nat) (got : String)
  | nilModel
  | batchSizeNotPositive
  | convertFailed (e : GoErr)
deriving DecidableEq

/-- Whether an error value mentions the index i (the %d argument of the
"at index %d" format strings), looking through the Create/CreateInBatches
wrapper "failed to convert models: %w". -/
def GoErr.namesIndex : GoErr → Nat → Bool
  | .nilModelAt j, i => i = j
  | .notAssignableAt j _, i => i = j
  | .assertModelFailedAt j _, i => i = j
  | .convertFailed e, i => e.namesIndex i
  | _, _ => false

/-- Decide whether an Except value is in the error case. -/
def isErr {ε α : Type} : Except ε α → Bool
  | .error _ => true
  | .ok _ => false

/-! ### convertModelsToSlice / convertSliceToModels (src/adapter/gorm/utils.go) -/

/-- The indexed loop body of convertModelsToSlice: nil check, pointer deref,
AssignableTo check (type identity for distinct named struct types), element
write.  The accumulator i is the running index of the Go range loop. -/
def convertModelsToSliceLoop (elemT : StructType) : Nat → List ModelIface → Except GoErr (List StructVal)
  | _, [] => .ok []
  | i, m :: rest =>
    match m with
    | .nil => .error (.nilModelAt i)
    | .ptr v | .val v =>
      if v.typ = elemT then
        (convertModelsToSliceLoop elemT (i + 1) rest).map (v :: ·)
      else
        .error (.notAssignableAt i elemT.name)

/-- convertModelsToSlice (src/adapter/gorm/utils.go lines 126-156): converts
a []contract.Model into a concrete []T slice of dereferenced struct values.
The returned slice has element type modelType.elemStruct (non-pointer). -/
def convertModelsToSlice (models : List ModelIface) (modelType : GoType) : Except GoErr (List StructVal) :=
  if models = [] then .error .emptyModelsSlice
  else convertModelsToSliceLoop modelType.elemStruct 0 models

/-- The indexed loop of convertSliceToModels: each slice element is boxed as
an interface and asserted to contract.Model.  elemIsPtr records whether the
reflected slice has element type *T (then the dynamic type of the item is
*T and the pointer method set decides) or T (the value method set decides). -/
def convertSliceToModelsLoop (elemIsPtr : Bool) : Nat → List StructVal → Except GoErr (List ModelIface)
  | _, [] => .ok []
  | i, v :: rest =>
    if (if elemIsPtr then v.typ.ptrImplementsModel else v.typ.valueImplementsModel) then
      (convertSliceToModelsLoop elemIsPtr (i + 1) rest).map
        ((if elemIsPtr then ModelIface.ptr v else ModelIface.val v) :: ·)
    else
      .error (.assertModelFailedAt i (if elemIsPtr then "*" ++ v.typ.name else v.typ.name))

/-- convertSliceToModels (src/adapter/gorm/utils.go lines 159-170): converts
a reflected slice back to []contract.Model via per-item type assertions. -/
def convertSliceToModels (elemIsPtr : Bool) (elems : List StructVal) : Except GoErr (List ModelIface) :=
  convertSliceToModelsLoop elemIsPtr 0 elems

/-! ### validateColumnName / validateOrderDirection / limit / offset -/

/-- The character class [a-zA-Z_] of the column regex. -/
def isIdentStartChar (c : Char) : Bool :=
  ('a' ≤ c && c ≤ 'z') || ('A' ≤ c && c ≤ 'Z') || c = '_'

/-- The character class [a-zA-Z0-9_] of the column regex. -/
def isIdentChar (c : Char) : Bool :=
  isIdentStartChar c || ('0' ≤ c && c ≤ '9')

/-- One dot-separated chunk matches [a-zA-Z_][a-zA-Z0-9_]*. -/
def identMatches : List Char → Bool
  | [] => false
  | c :: cs => isIdentStartChar c && cs.all isIdentChar

/-- Split a character list at every dot; always returns at least one chunk,
and empty chunks witness leading/trailing/doubled dots. -/
def splitOnDot : List Char → List (List Char)
  | [] => [[]]
  | c :: rest =>
    match splitOnDot rest with
    | [] => if c = '.' then [[], []] else [[c]]
    | g :: gs => if c = '.' then [] :: g :: gs else (c :: g) :: gs

/-- validateColumnName (src/adapter/gorm/utils.go lines 298-304): full-string
match of the anchored regex [a-zA-Z_][a-zA-Z0-9_]*(\.[a-zA-Z_][a-zA-Z0-9_]*)*,
i.e. every dot-separated chunk is a non-empty safe identifier. -/
def validateColumnName (column : String) : Bool :=
  (splitOnDot column.data).all identMatches

/-- validateOrderDirection (src/adapter/gorm/utils.go lines 307-313):
direction = strings.ToUpper(strings.TrimSpace(direction)); anything other
than ASC/DESC falls back to the default. -/
def validateOrderDirection (direction defaultDirection : String) : String :=
  let d := goToUpper (goTrimSpace direction)
  if d ≠ "ASC" && d ≠ "DESC" then defaultDirection else d

/-! ### The gorm.DB builder state

The *gorm.DB handle is modelled by the clause state the embedded methods
touch.  Each gorm chain method returns a new value with one clause added
(Where/Or/Order/Group/Having/Joins/Preload accumulate, Select/Limit/Offset
replace, Unscoped sets a flag), which is how the repository code uses the
handle. -/

/-- An opaque Go value passed as an any argument. -/
inductive GoVal where
  | prim (s : String)
  | slice (vs : List String)
deriving DecidableEq

/-- Clause state of a *gorm.DB handle. -/
structure GormDB where
  boundModel : Option StructType := none
  wheres : List (Bool × GoVal × List GoVal) := []
  selectClause : Option (List String) := none
  joins : List String := []
  groups : List String := []
  havings : List (GoVal × List GoVal) := []
  orders : List String := []
  limitClause : Option Int := none
  offsetClause : Option Int := none
  preloads : List String := []
  unscopedFlag : Bool := false
deriving DecidableEq

def GormDB.Model (db : GormDB) (t : StructType) : GormDB := { db with boundModel := some t }

def GormDB.Where (db : GormDB) (query : GoVal) (args : List GoVal) : GormDB :=
  { db with wheres := db.wheres ++ [(false, query, args)] }

def GormDB.Or (db : GormDB) (query : GoVal) (args : List GoVal) : GormDB :=
  { db with wheres := db.wheres ++ [(true, query, args)] }

def GormDB.Select (db : GormDB) (columns : List String) : GormDB :=
  { db with selectClause := some columns }

def GormDB.Joins (db : GormDB) (clause : String) : GormDB :=
  { db with joins := db.joins ++ [clause] }

def GormDB.Group (db : GormDB) (clause : String) : GormDB :=
  { db with groups := db.groups ++ [clause] }

def GormDB.Having (db : GormDB) (cond : GoVal) (args : List GoVal) : GormDB :=
  { db with havings := db.havings ++ [(cond, args)] }

def GormDB.Order (db : GormDB) (clause : String) : GormDB :=
  { db with orders := db.orders ++ [clause] }

def GormDB.Limit (db : GormDB) (n : Int) : GormDB := { db with limitClause := some n }

def GormDB.Offset (db : GormDB) (n : Int) : GormDB := { db with offsetClause := some n }

def GormDB.Preload (db : GormDB) (relation : String) : GormDB :=
  { db with preloads := db.preloads ++ [relation] }

def GormDB.Unscoped (db : GormDB) : GormDB := { db with unscopedFlag := true }

/-- validateAndApplyLimit (src/adapter/gorm/utils.go lines 55-61). -/
def validateAndApplyLimit (tx : GormDB) (limit : Int) : GormDB :=
  if limit < 0 then tx else tx.Limit limit

/-- validateAndApplyOffset (src/adapter/gorm/utils.go lines 64-70). -/
def validateAndApplyOffset (tx : GormDB) (offset : Int) : GormDB :=
  if offset < 0 then tx else tx.Offset offset

/-- applyOrderBy (src/adapter/gorm/utils.go lines 101-112): an invalid
column returns the handle untouched; otherwise the order clause
fmt.Sprintf("%s %s", column, normalizedDirection) is added. -/
def applyOrderBy (tx : GormDB) (column direction : String) : GormDB :=
  if ¬ validateColumnName column then tx
  else tx.Order (column ++ " " ++ validateOrderDirection direction "ASC")

/-! ### The repository fluent builder (src/unnamed/part_000, package gorm) -/

/-- What the repository keeps of its contract.Model prototype r.mdl: the
dynamic type of the interface value (getModelType strips the pointer) and
the relation names of its Relationships() map. -/
structure ModelDesc where
  dynType : GoType
  relationships : List String
deriving DecidableEq

/-- getModelType (src/adapter/gorm/utils.go lines 173-179). -/
def getModelType (m : ModelDesc) : StructType := m.dynType.elemStruct

/-- handleRelationshipPreload (src/adapter/gorm/utils.go lines 22-52).  The
switch on relationship.Type() calls tx.Preload(rel) in every branch, and so
does the fallback for a relation absent from the model's map. -/
def handleRelationshipPreload (tx : GormDB) (modelRelations : List String) (relations : List String) : GormDB :=
  if relations = [] then tx
  else relations.foldl (fun t rel =>
    if rel ∈ modelRelations then t.Preload rel else t.Preload rel) tx

/-- The repository struct (src/unnamed/part_000 lines 13-18). -/
structure repository where
  db : GormDB
  mdl : ModelDesc
deriving DecidableEq

/-- repository.With: pair (receiver state after the call, returned builder). -/
def repository.With (r : repository) (relations : List String) : repository × repository :=
  (r, { db := handleRelationshipPreload r.db r.mdl.relationships relations, mdl := r.mdl })

/-- repository.Where. -/
def repository.Where (r : repository) (query : GoVal) (args : List GoVal) : repository × repository :=
  (r, { db := r.db.Where query args, mdl := r.mdl })

/-- repository.Unscoped. -/
def repository.Unscoped (r : repository) : repository × repository :=
  (r, { db := r.db.Unscoped, mdl := r.mdl })

/-- repository.Limit. -/
def repository.Limit (r : repository) (limit : Int) : repository × repository :=
  (r, { db := validateAndApplyLimit r.db limit, mdl := r.mdl })

/-- repository.Offset. -/
def repository.Offset (r : repository) (offset : Int) : repository × repository :=
  (r, { db := validateAndApplyOffset r.db offset, mdl := r.mdl })

/-- repository.OrderBy. -/
def repository.OrderBy (r : repository) (column direction : String) : repository × repository :=
  (r, { db := applyOrderBy r.db column direction, mdl := r.mdl })

/-- optimizeCreateOperation (src/adapter/gorm/utils.go lines 84-98):
(use single-model optimization, the single model, error). -/
def optimizeCreateOperation (models : List ModelIface) : Bool × Option ModelIface × Option GoErr :=
  match models with
  | [] => (false, none, none)
  | [m] => if m = ModelIface.nil then (false, none, some .nilModel) else (true, some m, none)
  | _ => (false, none, none)

/-- The repository's private convertModelsToSlice helper
(src/unnamed/part_000 lines 59-62); a flat name is used because inside the
repository namespace the short name would shadow the global function. -/
def repositoryConvertModelsToSlice (r : repository) (models : List ModelIface) : Except GoErr (List StructVal) :=
  convertModelsToSlice models (GoType.struct (getModelType r.mdl))

/-- The backend call a Create resolves to. -/
inductive CreateAction where
  | noOp
  | createSingle (m : ModelIface)
  | createSlice (elemT : StructType) (s : List StructVal)
deriving DecidableEq

/-- repository.Create (src/unnamed/part_000 lines 113-137): the optimization
helper runs first (its error aborts), an empty slice is a no-op, a single
model goes to db.Create directly, more than one is bridged. -/
def repository.Create (r : repository) (models : List ModelIface) : Except GoErr CreateAction :=
  match optimizeCreateOperation models with
  | (_, _, some e) => .error e
  | (useSingle, singleModel, none) =>
    if models = [] then .ok .noOp
    else if useSingle then .ok (.createSingle (singleModel.getD .nil))
    else
      match repositoryConvertModelsToSlice r models with
      | .error e => .error (.convertFailed e)
      | .ok s => .ok (.createSlice (getModelType r.mdl) s)

/-- The backend call a CreateInBatches resolves to. -/
inductive BatchAction where
  | noOp
  | batched (elemT : StructType) (s : List StructVal) (batchSize : Int)
deriving DecidableEq

/-- repository.CreateInBatches (src/unnamed/part_000 lines 139-154): the
empty-slice no-op precedes the batch-size check. -/
def repository.CreateInBatches (r : repository) (models : List ModelIface) (batchSize : Int) :
    Except GoErr BatchAction :=
  if models = [] then .ok .noOp
  else if batchSize ≤ 0 then .error .batchSizeNotPositive
  else
    match repositoryConvertModelsToSlice r models with
    | .error e => .error (.convertFailed e)
    | .ok s => .ok (.batched (getModelType r.mdl) s batchSize)

/-! ### The gorm query builder (src/adapter/gorm/query_builder.go) -/

/-- The gormQueryBuilder struct (lines 18-24). -/
structure gormQueryBuilder where
  db : GormDB
  model : ModelDesc
deriving DecidableEq

def gormQueryBuilder.Select (q : gormQueryBuilder) (columns : List String) :
    gormQueryBuilder × gormQueryBuilder :=
  (q, { db := q.db.Select columns, model := q.model })

def gormQueryBuilder.Where (q : gormQueryBuilder) (condition : String) (args : List GoVal) :
    gormQueryBuilder × gormQueryBuilder :=
  (q, { db := q.db.Where (GoVal.prim condition) args, model := q.model })

def gormQueryBuilder.WhereIn (q : gormQueryBuilder) (column : String) (values : List String) :
    gormQueryBuilder × gormQueryBuilder :=
  (q, { db := q.db.Where (GoVal.prim (column ++ " IN ?")) [GoVal.slice values], model := q.model })

def gormQueryBuilder.WhereNotIn (q : gormQueryBuilder) (column : String) (values : List String) :
    gormQueryBuilder × gormQueryBuilder :=
  (q, { db := q.db.Where (GoVal.prim (column ++ " NOT IN ?")) [GoVal.slice values], model := q.model })

def gormQueryBuilder.WhereNull (q : gormQueryBuilder) (column : String) :
    gormQueryBuilder × gormQueryBuilder :=
  (q, { db := q.db.Where (GoVal.prim (column ++ " IS NULL")) [], model := q.model })

def gormQueryBuilder.WhereNotNull (q : gormQueryBuilder) (column : String) :
    gormQueryBuilder × gormQueryBuilder :=
  (q, { db := q.db.Where (GoVal.prim (column ++ " IS NOT NULL")) [], model := q.model })

def gormQueryBuilder.WhereBetween (q : gormQueryBuilder) (column : String) (start finish : GoVal) :
    gormQueryBuilder × gormQueryBuilder :=
  (q, { db := q.db.Where (GoVal.prim (column ++ " BETWEEN ? AND ?")) [start, finish], model := q.model })

def gormQueryBuilder.OrWhere (q : gormQueryBuilder) (condition : String) (args : List GoVal) :
    gormQueryBuilder × gormQueryBuilder :=
  (q, { db := q.db.Or (GoVal.prim condition) args, model := q.model })

def gormQueryBuilder.Join (q : gormQueryBuilder) (table condition : String) :
    gormQueryBuilder × gormQueryBuilder :=
  (q, { db := q.db.Joins ("JOIN " ++ table ++ " ON " ++ condition), model := q.model })

def gormQueryBuilder.LeftJoin (q : gormQueryBuilder) (table condition : String) :
    gormQueryBuilder × gormQueryBuilder :=
  (q, { db := q.db.Joins ("LEFT JOIN " ++ table ++ " ON " ++ condition), model := q.model })

def gormQueryBuilder.RightJoin (q : gormQueryBuilder) (table condition : String) :
    gormQueryBuilder × gormQueryBuilder :=
  (q, { db := q.db.Joins ("RIGHT JOIN " ++ table ++ " ON " ++ condition), model := q.model })

def gormQueryBuilder.InnerJoin (q : gormQueryBuilder) (table condition : String) :
    gormQueryBuilder × gormQueryBuilder :=
  (q, { db := q.db.Joins ("INNER JOIN " ++ table ++ " ON " ++ condition), model := q.model })

/-- gormQueryBuilder.OrderBy (lines 134-145): its own copy of the direction
normalization (trim, upper-case, fall back to ASC), with no column check. -/
def gormQueryBuilder.OrderBy (q : gormQueryBuilder) (column direction : String) :
    gormQueryBuilder × gormQueryBuilder :=
  let d := goToUpper (goTrimSpace direction)
  let d := if d ≠ "ASC" && d ≠ "DESC" then "ASC" else d
  (q, { db := q.db.Order (column ++ " " ++ d), model := q.model })

def gormQueryBuilder.GroupBy (q : gormQueryBuilder) (columns : List String) :
    gormQueryBuilder × gormQueryBuilder :=
  (q, { db := q.db.Group (String.intercalate ", " columns), model := q.model })

def gormQueryBuilder.Having (q : gormQueryBuilder) (condition : String) (args : List GoVal) :
    gormQueryBuilder × gormQueryBuilder :=
  (q, { db := q.db.Having (GoVal.prim condition) args, model := q.model })

/-- gormQueryBuilder.Limit (lines 163-171): a negative argument returns the
receiver itself. -/
def gormQueryBuilder.Limit (q : gormQueryBuilder) (limit : Int) :
    gormQueryBuilder × gormQueryBuilder :=
  if limit < 0 then (q, q)
  else (q, { db := q.db.Limit limit, model := q.model })

/-- gormQueryBuilder.Offset (lines 173-181). -/
def gormQueryBuilder.Offset (q : gormQueryBuilder) (offset : Int) :
    gormQueryBuilder × gormQueryBuilder :=
  if offset < 0 then (q, q)
  else (q, { db := q.db.Offset offset, model := q.model })

def gormQueryBuilder.With (q : gormQueryBuilder) (relations : List String) :
    gormQueryBuilder × gormQueryBuilder :=
  (q, { db := relations.foldl GormDB.Preload q.db, model := q.model })

def gormQueryBuilder.Unscoped (q : gormQueryBuilder) : gormQueryBuilder × gormQueryBuilder :=
  (q, { db := q.db.Unscoped, model := q.model })

/-! ### The registries

Go maps keyed by strings are modelled as association lists with
replace-on-insert, paired with first-match lookup.  A panic is modelled as
the second component of the returned pair: the pair (state, some message)
is the registry content left behind by a call that panicked with that
message (the registries are global mutable maps, so insertions made before
a panic survive it). -/

/-- First-match lookup in an association list (Go map read m[k]). -/
def mapLookup {α : Type} : List (String × α) → String → Option α
  | [], _ => none
  | (k, v) :: rest, key => if k = key then some v else mapLookup rest key

/-- Replace-on-insert (Go map write m[k] = v). -/
def mapInsert {α : Type} : List (String × α) → String → α → List (String × α)
  | [], k, v => [(k, v)]
  | (k', v') :: rest, k, v =>
    if k' = k then (k, v) :: rest else (k', v') :: mapInsert rest k v

/-- A backend connection as the connect facade sees it: an identity and the
outcome of its one Ping. -/
structure GoConn where
  cid : Nat
  pingErr : Option String
deriving DecidableEq, BEq

/-- The behaviour of a contract.DBAdapter: Connect(cfg) either fails with
connectErr or returns conn. -/
structure DBAdapterB where
  connectErr : Option String
  conn : GoConn
deriving DecidableEq

/-- The per-name loop of RegisterAdapter: an empty alias panics after the
earlier aliases have already been inserted. -/
def registerAdapterLoop (adapter : DBAdapterB) :
    List (String × DBAdapterB) → List String → List (String × DBAdapterB) × Option String
  | st, [] => (st, none)
  | st, n :: rest =>
    if n = "" then (st, some "cannot register adapter with an empty name")
    else registerAdapterLoop adapter (mapInsert st n adapter) rest

/-- RegisterAdapter (src/unnamed/part_008 lines 15-32): nil-adapter and
empty-name-list checks run before any insertion; each alias is checked for
emptiness just before its own insertion. -/
def RegisterAdapter (st : List (String × DBAdapterB)) (adapter : Option DBAdapterB)
    (names : List String) : List (String × DBAdapterB) × Option String :=
  match adapter with
  | none => (st, some "cannot register a nil database adapter")
  | some a =>
    if names = [] then (st, some "cannot register adapter without at least one name")
    else registerAdapterLoop a st names

/-- GetAdapter (src/unnamed/part_008 lines 34-43); the %q verb renders the
name in quotes inside the message. -/
def GetAdapter (st : List (String × DBAdapterB)) (name : String) : Except String DBAdapterB :=
  match mapLookup st name with
  | some a => .ok a
  | none => .error ("unknown database adapter \"" ++ name ++ "\" (is the adapter package imported?)")

/-- An opaque contract.QueryBuilderFactory implementation. -/
structure QueryBuilderFactory where
  fid : Nat
deriving DecidableEq

/-- queryBuilderRegistry.Register (src/db/query_builder_registry.go lines
34-46): empty-name check first, then nil-factory check, then one insert. -/
def qbRegistryRegister (st : List (String × QueryBuilderFactory)) (adapterName : String)
    (factory : Option QueryBuilderFactory) : List (String × QueryBuilderFactory) × Option String :=
  if adapterName = "" then (st, some "adapter name cannot be empty")
  else
    match factory with
    | none => (st, some "factory cannot be nil")
    | some f => (mapInsert st adapterName f, none)

/-- queryBuilderRegistry.Get (lines 49-59). -/
def qbRegistryGet (st : List (String × QueryBuilderFactory)) (adapterName : String) :
    Except String QueryBuilderFactory :=
  match mapLookup st adapterName with
  | some f => .ok f
  | none => .error ("query builder factory not found for adapter: " ++ adapterName)

/-- queryBuilderRegistry.List (lines 62-72): the keys of the map. -/
def qbRegistryList (st : List (String × QueryBuilderFactory)) : List String :=
  st.map Prod.fst

/-- The registry contents after a sequence of Register calls starting from
the fresh (empty) global registry; a call that panics leaves the state it
had produced so far. -/
def qbApplyRegisters (ops : List (String × Option QueryBuilderFactory)) :
    List (String × QueryBuilderFactory) :=
  ops.foldl (fun st op => (qbRegistryRegister st op.1 op.2).1) []

/-! ### The connect facade (src/db/connection.go, src/db/options.go) -/

/-- The cfg.Adapter injection slot: a contract.DBAdapter value or a value of
some other type (the type assertion in Connect then fails). -/
inductive AdapterInj where
  | valid (a : DBAdapterB)
  | invalid
deriving DecidableEq

/-- config.Config restricted to the fields Connect reads
(src/unnamed/part_011). -/
structure Config where
  Driver : String := ""
  DSN : String := ""
  Adapter : Option AdapterInj := none

/-- Config.Validate (src/unnamed/part_011 lines 49-57). -/
def Config.Validate (c : Config) : Option String :=
  if c.Driver = "" then some "database driver is required"
  else if c.DSN = "" then some "database dsn is required"
  else none

/-- The db.Error struct (src/db/options.go lines 40-46), with the wrapped
cause rendered as a string. -/
structure DbError where
  Operation : String
  Message : String
  Err : Option String
deriving DecidableEq

/-- NewError (src/db/options.go lines 70-76). -/
def NewError (operation message : String) (err : Option String) : DbError :=
  ⟨operation, message, err⟩

def NewConfigValidationError (err : String) : DbError :=
  NewError "Connect" "config validation failed" (some err)

def NewInvalidAdapterError : DbError :=
  NewError "Connect" "invalid adapter type provided in config" (some "invalid adapter type")

def NewAdapterLookupError (err : String) : DbError :=
  NewError "Connect" "adapter lookup failed" (some err)

def NewAdapterConnectError (err : String) : DbError :=
  NewError "Connect" "adapter connect failed" (some err)

def NewConnectionPingError (err : String) : DbError :=
  NewError "Connect" "initial database ping failed" (some err)

/-- Observable side effects of the connect facade. -/
inductive ConnEvent where
  | closed (cid : Nat)
deriving DecidableEq, BEq

/-- The adapter-resolution step of Connect (src/db/connection.go lines
23-36): explicit injection wins over the registry lookup by driver name. -/
def resolveAdapter (registry : List (String × DBAdapterB)) (cfg : Config) :
    Except DbError DBAdapterB :=
  match cfg.Adapter with
  | some (.valid a) => .ok a
  | some .invalid => .error NewInvalidAdapterError
  | none =>
    match GetAdapter registry cfg.Driver with
    | .ok a => .ok a
    | .error e => .error (NewAdapterLookupError e)

/-- The option-application loop at the top of Connect
(src/db/connection.go lines 14-16). -/
def applyOptions (cfg : Config) (opts : List (Config → Config)) : Config :=
  opts.foldl (fun c o => o c) cfg

/-- db.Connect (src/db/connection.go lines 12-51): options, validation,
adapter resolution, adapter.Connect, one Ping; a failed ping closes the
connection before the error is returned.  The second component is the list
of Close events performed. -/
def dbConnect (registry : List (String × DBAdapterB)) (cfg₀ : Config)
    (opts : List (Config → Config)) : Except DbError GoConn × List ConnEvent :=
  match (applyOptions cfg₀ opts).Validate with
  | some e => (.error (NewConfigValidationError e), [])
  | none =>
    match resolveAdapter registry (applyOptions cfg₀ opts) with
    | .error e => (.error e, [])
    | .ok adapter =>
      match adapter.connectErr with
      | some e => (.error (NewAdapterConnectError e), [])
      | none =>
        match adapter.conn.pingErr with
        | some e => (.error (NewConnectionPingError e), [ConnEvent.closed adapter.conn.cid])
        | none => (.ok adapter.conn, [])

/-! ### Spec-side notions and helper lemmas -/

/-- Case-insensitive string equality, its natural reading: the two strings
are equal after upper-casing. -/
def eqCaseInsensitive (s t : String) : Bool :=
  goToUpper s = goToUpper t

/-- An element offends the bridge conversion towards element type t: it is
the nil interface, or its dereferenced concrete type is not assignable
(not identical, for named struct types) to t. -/
def offends (t : StructType) : ModelIface → Bool
  | .nil => true
  | .ptr v => v.typ ≠ t
  | .val v => v.typ ≠ t

/-- The error convertModelsToSlice reports for an offending element at
index i. -/
def errAt (t : StructType) (i : Nat) : ModelIface → GoErr
  | .nil => .nilModelAt i
  | .ptr _ => .notAssignableAt i t.name
  | .val _ => .notAssignableAt i t.name

/-! ### Concrete instances used by witnesses and counterexamples

Tp mirrors the repository's own example model (src/unnamed/part_007,
package user, type User): PrimaryKey/TableName/GetID/Relationships and
SetID are all declared on the pointer receiver *User, so the pointer type
implements contract.Model while the value type does not (SetID is missing
from the value method set).  Tv mirrors a model whose whole capability set
sits on value receivers, so both method sets implement the interface. -/

def Tp : StructType := ⟨"User", false, true⟩

def Tv : StructType := ⟨"TestModel", true, true⟩

def u0 : StructVal := ⟨Tp, [("id", "1")]⟩

def v0 : StructVal := ⟨Tv, [("id", "1"), ("name", "test1")]⟩

def v1 : StructVal := ⟨Tv, [("id", "2"), ("name", "test2")]⟩

/-- A fresh *gorm.DB handle with no accumulated clause. -/
def db0 : GormDB := {}

/-- A repository over the example pointer-receiver model. -/
def r0 : repository := ⟨db0, ⟨GoType.ptr Tp, []⟩⟩

/-- A concrete adapter whose Connect succeeds and whose connection pings. -/
def A1 : DBAdapterB := ⟨none, ⟨1, none⟩⟩

/-- A concrete adapter whose Connect succeeds but whose connection fails
its ping. -/
def A2 : DBAdapterB := ⟨none, ⟨7, some "ping boom"⟩⟩

theorem offends_eq_false_iff (t : StructType) (m : ModelIface) :
    offends t m = false ↔ m ≠ ModelIface.nil ∧ m.underlying.typ = t := by
  cases m <;> simp [offends, ModelIface.underlying]

theorem isErr_map {ε α β : Type} (f : α → β) (x : Except ε α) :
    isErr (x.map f) = isErr x := by
  cases x <;> rfl

theorem exists_mem_iff_exists_getD {α : Type} (d : α) (p : α → Bool) (l : List α) :
    (∃ m ∈ l, p m = true) ↔ ∃ i, i < l.length ∧ p (l.getD i d) = true := by
  constructor
  · rintro ⟨m, hm, hp⟩
    obtain ⟨i, hi, rfl⟩ := List.mem_iff_getElem.mp hm
    exact ⟨i, hi, by rwa [List.getD_eq_getElem _ _ hi]⟩
  · rintro ⟨i, hi, hp⟩
    exact ⟨l.getD i d, by rw [List.getD_eq_getElem _ _ hi]; exact List.getElem_mem hi,
      hp⟩

theorem convertLoop_ok (t : StructType) :
    ∀ (ms : List ModelIface) (i : Nat), (∀ m ∈ ms, offends t m = false) →
      convertModelsToSliceLoop t i ms = .ok (ms.map ModelIface.underlying)
  | [], _, _ => rfl
  | m :: rest, i, h => by
    have hm := h m (List.mem_cons_self m rest)
    have hrest : ∀ x ∈ rest, offends t x = false := fun x hx => h x (List.mem_cons_of_mem m hx)
    cases m with
    | nil => simp [offends] at hm
    | ptr v =>
      have hv : v.typ = t := by simpa [offends] using hm
      simp [convertModelsToSliceLoop, hv, convertLoop_ok t rest (i + 1) hrest,
        ModelIface.underlying, Except.map]
    | val v =>
      have hv : v.typ = t := by simpa [offends] using hm
      simp [convertModelsToSliceLoop, hv, convertLoop_ok t rest (i + 1) hrest,
        ModelIface.underlying, Except.map]

theorem convertLoop_isErr_iff (t : StructType) :
    ∀ (ms : List ModelIface) (i : Nat),
      isErr (convertModelsToSliceLoop t i ms) = true ↔ ∃ m ∈ ms, offends t m = true
  | [], _ => by simp [convertModelsToSliceLoop, isErr]
  | m :: rest, i => by
    cases m with
    | nil => simp [convertModelsToSliceLoop, isErr, offends]
    | ptr v =>
      by_cases hv : v.typ = t
      · simp [convertModelsToSliceLoop, hv, isErr_map, convertLoop_isErr_iff t rest (i + 1),
          offends]
      · simp [convertModelsToSliceLoop, hv, isErr, offends]
    | val v =>
      by_cases hv : v.typ = t
      · simp [convertModelsToSliceLoop, hv, isErr_map, convertLoop_isErr_iff t rest (i + 1),
          offends]
      · simp [convertModelsToSliceLoop, hv, isErr, offends]

theorem convertLoop_first_err (t : StructType) (m : ModelIface) (rest : List ModelIface)
    (hm : offends t m = true) :
    ∀ (pre : List ModelIface) (i : Nat), (∀ x ∈ pre, offends t x = false) →
      convertModelsToSliceLoop t i (pre ++ m :: rest) = .error (errAt t (i + pre.length) m)
  | [], i, _ => by
    cases m with
    | nil => simp [convertModelsToSliceLoop, errAt]
    | ptr v =>
      have hv : v.typ ≠ t := by simpa [offends] using hm
      simp [convertModelsToSliceLoop, hv, errAt]
    | val v =>
      have hv : v.typ ≠ t := by simpa [offends] using hm
      simp [convertModelsToSliceLoop, hv, errAt]
  | x :: pre, i, hpre => by
    have hx := hpre x (List.mem_cons_self x pre)
    have hpre' : ∀ y ∈ pre, offends t y = false := fun y hy => hpre y (List.mem_cons_of_mem x hy)
    have hrec := convertLoop_first_err t m rest hm pre (i + 1) hpre'
    cases x with
    | nil => simp [offends] at hx
    | ptr v =>
      have hv : v.typ = t := by simpa [offends] using hx
      have harith : i + 1 + pre.length = i + (pre.length + 1) := by omega
      simp [convertModelsToSliceLoop, hv, hrec, Except.map, harith]
    | val v =>
      have hv : v.typ = t := by simpa [offends] using hx
      have harith : i + 1 + pre.length = i + (pre.length + 1) := by omega
      simp [convertModelsToSliceLoop, hv, hrec, Except.map, harith]

/-- The first offending index determines the reported error. -/
theorem convertModelsToSlice_first_err (models : List ModelIface) (mt : GoType) (i : Nat)
    (hi : i < models.length)
    (hoff : offends mt.elemStruct (models.getD i ModelIface.nil) = true)
    (hpre : ∀ j, j < i → offends mt.elemStruct (models.getD j ModelIface.nil) = false) :
    convertModelsToSlice models mt = .error (errAt mt.elemStruct i (models.getD i ModelIface.nil)) := by
  have hne : models ≠ [] := by
    intro h; rw [h] at hi; exact absurd hi (by simp)
  have hdecomp : models = models.take i ++ models.getD i ModelIface.nil :: models.drop (i + 1) := by
    rw [List.getD_eq_getElem _ _ hi]
    rw [← List.drop_eq_getElem_cons hi, List.take_append_drop]
  have htake : ∀ x ∈ models.take i, offends mt.elemStruct x = false := by
    intro x hx
    obtain ⟨j, hj, rfl⟩ := List.mem_iff_getElem.mp hx
    have hj' : j < i := lt_of_lt_of_le hj (by simp [List.length_take])
    have hjlen : j < models.length := lt_of_lt_of_le hj (by simp [List.length_take])
    have := hpre j hj'
    rwa [List.getD_eq_getElem _ _ hjlen, ← List.getElem_take] at this
  have hlen : (models.take i).length = i := by
    simp [List.length_take]; omega
  unfold convertModelsToSlice
  rw [if_neg hne]
  calc convertModelsToSliceLoop mt.elemStruct 0 models
      = convertModelsToSliceLoop mt.elemStruct 0
          (models.take i ++ models.getD i ModelIface.nil :: models.drop (i + 1)) := by
        rw [← hdecomp]
    _ = .error (errAt mt.elemStruct (0 + (models.take i).length) (models.getD i ModelIface.nil)) :=
        convertLoop_first_err mt.elemStruct _ _ hoff (models.take i) 0 htake
    _ = .error (errAt mt.elemStruct i (models.getD i ModelIface.nil)) := by rw [hlen]; norm_num

theorem sliceLoop_ok_val :
    ∀ (S : List StructVal) (i : Nat), (∀ v ∈ S, v.typ.valueImplementsModel = true) →
      convertSliceToModelsLoop false i S = .ok (S.map ModelIface.val)
  | [], _, _ => rfl
  | v :: rest, i, h => by
    have hv := h v (List.mem_cons_self v rest)
    have hrest : ∀ x ∈ rest, x.typ.valueImplementsModel = true :=
      fun x hx => h x (List.mem_cons_of_mem v hx)
    simp [convertSliceToModelsLoop, hv, sliceLoop_ok_val rest (i + 1) hrest, Except.map]

theorem mapLookup_mapInsert_self {α : Type} :
    ∀ (st : List (String × α)) (k : String) (v : α),
      mapLookup (mapInsert st k v) k = some v
  | [], _, _ => by simp [mapInsert, mapLookup]
  | (k', v') :: rest, k, v => by
    by_cases h : k' = k
    · simp [mapInsert, h, mapLookup]
    · simp [mapInsert, h, mapLookup, mapLookup_mapInsert_self rest k v]

theorem mem_keys_mapInsert {α : Type} (k : String) (v : α) :
    ∀ (st : List (String × α)) (a : String),
      (a ∈ (mapInsert st k v).map Prod.fst) ↔ a ∈ st.map Prod.fst ∨ a = k
  | [], a => by simp [mapInsert]
  | (k', v') :: rest, a => by
    by_cases h : k' = k
    · subst h
      simp [mapInsert]
      tauto
    · simp [mapInsert, h, mem_keys_mapInsert k v rest a]
      tauto

theorem nodup_keys_mapInsert {α : Type} (k : String) (v : α) :
    ∀ (st : List (String × α)), (st.map Prod.fst).Nodup →
      ((mapInsert st k v).map Prod.fst).Nodup
  | [], _ => by simp [mapInsert]
  | (k', v') :: rest, h => by
    rw [List.map_cons, List.nodup_cons] at h
    by_cases hk : k' = k
    · subst hk
      simpa [mapInsert, List.nodup_cons] using h
    · rw [show mapInsert ((k', v') :: rest) k v = (k', v') :: mapInsert rest k v by
        simp [mapInsert, hk]]
      rw [List.map_cons, List.nodup_cons]
      refine ⟨fun hmem => ?_, nodup_keys_mapInsert k v rest h.2⟩
      rcases (mem_keys_mapInsert k v rest k').mp hmem with h' | h'
      · exact h.1 h'
      · exact hk h'

theorem qbRegister_keys_nodup (n : String) (f : Option QueryBuilderFactory) :
    ∀ (st : List (String × QueryBuilderFactory)), (st.map Prod.fst).Nodup →
      (((qbRegistryRegister st n f).1).map Prod.fst).Nodup := by
  intro st h
  unfold qbRegistryRegister
  by_cases hn : n = ""
  · simpa [hn]
  · cases f with
    | none => simpa [hn]
    | some f => simpa [hn] using nodup_keys_mapInsert n f st h

theorem qbApplyRegisters_aux :
    ∀ (ops : List (String × Option QueryBuilderFactory))
      (st : List (String × QueryBuilderFactory)), (st.map Prod.fst).Nodup →
      ((ops.foldl (fun st op => (qbRegistryRegister st op.1 op.2).1) st).map Prod.fst).Nodup
  | [], _, h => h
  | op :: ops, st, h =>
    qbApplyRegisters_aux ops _ (qbRegister_keys_nodup op.1 op.2 st h)

theorem registerAdapterLoop_partial (a : DBAdapterB) (rest : List String) :
    ∀ (pre : List String) (st : List (String × DBAdapterB)), "" ∉ pre →
      registerAdapterLoop a st (pre ++ "" :: rest) =
        (pre.foldl (fun s n => mapInsert s n a) st,
         some "cannot register adapter with an empty name")
  | [], st, _ => by simp [registerAdapterLoop]
  | n :: pre, st, hpre => by
    have hn : ¬ n = "" := fun h => hpre (h ▸ List.mem_cons_self n pre)
    have hpre' : "" ∉ pre := fun h => hpre (List.mem_cons_of_mem n h)
    simp only [List.cons_append, registerAdapterLoop, if_neg hn, List.foldl_cons]
    exact registerAdapterLoop_partial a rest pre (mapInsert st n a) hpre'

/-! ### The claims -/

/-- Claim C1: for every list of entities and target element type, the
bridge conversion convertModelsToSlice fails if and only if the list is
empty, or some element is nil, or some element's concrete type is not
assignable to the target element type; and when an offending index exists
whose predecessors are all non-offending (the first offending index in
left-to-right order), the reported error is the one naming that index,
matching the offence kind (nil versus non-assignable). -/
theorem claim_C1 (models : List ModelIface) (modelType : GoType) :
    (isErr (convertModelsToSlice models modelType) = true ↔
      models = [] ∨ ∃ i, i < models.length ∧
        offends modelType.elemStruct (models.getD i ModelIface.nil) = true) ∧
    (∀ i, i < models.length →
      offends modelType.elemStruct (models.getD i ModelIface.nil) = true →
      (∀ j, j < i → offends modelType.elemStruct (models.getD j ModelIface.nil) = false) →
      convertModelsToSlice models modelType =
        .error (errAt modelType.elemStruct i (models.getD i ModelIface.nil))) := by
  constructor
  · by_cases hne : models = []
    · subst hne
      simp [convertModelsToSlice, isErr]
    · rw [convertModelsToSlice, if_neg hne, convertLoop_isErr_iff,
        exists_mem_iff_exists_getD ModelIface.nil]
      tauto
  · intro i hi hoff hpre
    exact convertModelsToSlice_first_err models modelType i hi hoff hpre

/-- Witness for C1 at concrete inputs: a nil at index 1 behind a valid
element is reported as index 1; a non-assignable element at index 0 ahead
of a nil at index 1 wins (first offending index in left-to-right order). -/
theorem claim_C1_witness :
    convertModelsToSlice [ModelIface.ptr v0, ModelIface.nil] (GoType.struct Tv) =
      .error (GoErr.nilModelAt 1) ∧
    convertModelsToSlice [ModelIface.ptr u0, ModelIface.nil] (GoType.struct Tv) =
      .error (GoErr.notAssignableAt 0 "TestModel") := by
  constructor
  · exact (claim_C1 [ModelIface.ptr v0, ModelIface.nil] (GoType.struct Tv)).2 1
      (by decide) (by decide)
      (fun j hj => by rw [Nat.lt_one_iff] at hj; subst hj; decide)
  · exact (claim_C1 [ModelIface.ptr u0, ModelIface.nil] (GoType.struct Tv)).2 0
      (by decide) (by decide)
      (fun j hj => absurd hj (by omega))

/-- Claim C2 (amended): for a non-empty collection of non-nil entities
whose concrete type is T, convertModelsToSlice succeeds and yields the
dereferenced struct values; converting back with convertSliceToModels
round-trips length and per-element content provided T's value method set
implements the contract.Model capability set.  When T implements the
interface only through its pointer type -- as every model of this
repository does -- the back-conversion fails with the type-assertion error
at index 0, because the homogeneous slice produced by convertModelsToSlice
holds struct values, not pointers. -/
theorem claim_C2 (E : List ModelIface) (T : StructType)
    (hne : E ≠ [])
    (hE : ∀ m ∈ E, m ≠ ModelIface.nil ∧ m.underlying.typ = T) :
    convertModelsToSlice E (GoType.struct T) = .ok (E.map ModelIface.underlying) ∧
    (T.valueImplementsModel = true →
      convertSliceToModels false (E.map ModelIface.underlying) =
        .ok ((E.map ModelIface.underlying).map ModelIface.val) ∧
      ((E.map ModelIface.underlying).map ModelIface.val).length = E.length ∧
      ((E.map ModelIface.underlying).map ModelIface.val).map ModelIface.deref =
        E.map ModelIface.deref) ∧
    (T.valueImplementsModel = false →
      convertSliceToModels false (E.map ModelIface.underlying) =
        .error (GoErr.assertModelFailedAt 0 T.name)) := by
  have hoff : ∀ m ∈ E, offends T m = false :=
    fun m hm => (offends_eq_false_iff T m).mpr (hE m hm)
  refine ⟨?_, fun hT => ⟨?_, by simp, ?_⟩, fun hT => ?_⟩
  · rw [convertModelsToSlice, if_neg hne]
    exact convertLoop_ok T E 0 hoff
  · refine sliceLoop_ok_val (E.map ModelIface.underlying) 0 ?_
    intro v hv
    obtain ⟨m, hm, rfl⟩ := List.mem_map.mp hv
    rw [(hE m hm).2]
    exact hT
  · rw [List.map_map, List.map_map]
    refine List.map_congr_left ?_
    intro m hm
    have hnil := (hE m hm).1
    cases m with
    | nil => exact absurd rfl hnil
    | ptr v => rfl
    | val v => rfl
  · obtain ⟨e, E', rfl⟩ := List.exists_cons_of_ne_nil hne
    have htyp : e.underlying.typ = T := (hE e (List.mem_cons_self e E')).2
    rw [List.map_cons, convertSliceToModels, convertSliceToModelsLoop]
    simp [htyp, hT]

/-- Witness for C2 at a concrete input: a two-element collection of
pointer entities whose struct type TestModel carries its capability set on
value receivers round-trips with identical length and content. -/
theorem claim_C2_witness :
    convertModelsToSlice [ModelIface.ptr v0, ModelIface.val v1] (GoType.struct Tv) =
      .ok [v0, v1] ∧
    convertSliceToModels false [v0, v1] =
      .ok [ModelIface.val v0, ModelIface.val v1] := by
  have h := claim_C2 [ModelIface.ptr v0, ModelIface.val v1] Tv (by decide) (by decide)
  exact ⟨h.1, (h.2.1 rfl).1⟩

/-- Counterexample to C2 as stated: for the repository's own example model
(type User of src/unnamed/part_007, whose contract.Model methods sit on
the pointer receiver, so the value type User does not implement the
interface), the forward conversion succeeds but the back-conversion of
the resulting []User value slice fails its type assertion at index 0:
the round trip does not succeed. -/
theorem claim_C2_counterexample :
    convertModelsToSlice [ModelIface.ptr u0] (GoType.struct Tp) = .ok [u0] ∧
    convertSliceToModels false [u0] = .error (GoErr.assertModelFailedAt 0 "User") ∧
    isErr (convertSliceToModels false [u0]) = true := by
  exact ⟨rfl, rfl, rfl⟩

/-- Claim C3: every clause-adding operation of the repository and of the
gorm query builder leaves the receiver's accumulated state exactly what it
was before the call (each method is embedded as the pair of receiver state
after the call and returned builder; the returned builder is a freshly
constructed value).  This is the builder-immutability invariant. -/
theorem claim_C3 (r : repository) (q : gormQueryBuilder) (relations columns : List String)
    (values : List String) (query : GoVal) (args : List GoVal) (x y : GoVal)
    (column direction table condition : String) (n : Int) :
    (repository.With r relations).1 = r ∧
    (repository.Where r query args).1 = r ∧
    (repository.Unscoped r).1 = r ∧
    (repository.Limit r n).1 = r ∧
    (repository.Offset r n).1 = r ∧
    (repository.OrderBy r column direction).1 = r ∧
    (gormQueryBuilder.Select q columns).1 = q ∧
    (gormQueryBuilder.Where q condition args).1 = q ∧
    (gormQueryBuilder.WhereIn q column values).1 = q ∧
    (gormQueryBuilder.WhereNotIn q column values).1 = q ∧
    (gormQueryBuilder.WhereNull q column).1 = q ∧
    (gormQueryBuilder.WhereNotNull q column).1 = q ∧
    (gormQueryBuilder.WhereBetween q column x y).1 = q ∧
    (gormQueryBuilder.OrWhere q condition args).1 = q ∧
    (gormQueryBuilder.Join q table condition).1 = q ∧
    (gormQueryBuilder.LeftJoin q table condition).1 = q ∧
    (gormQueryBuilder.RightJoin q table condition).1 = q ∧
    (gormQueryBuilder.InnerJoin q table condition).1 = q ∧
    (gormQueryBuilder.OrderBy q column direction).1 = q ∧
    (gormQueryBuilder.GroupBy q columns).1 = q ∧
    (gormQueryBuilder.Having q condition args).1 = q ∧
    (gormQueryBuilder.Limit q n).1 = q ∧
    (gormQueryBuilder.Offset q n).1 = q ∧
    (gormQueryBuilder.With q relations).1 = q ∧
    (gormQueryBuilder.Unscoped q).1 = q := by
  refine ⟨rfl, rfl, rfl, rfl, rfl, rfl, rfl, rfl, rfl, rfl, rfl, rfl, rfl, rfl, rfl, rfl,
    rfl, rfl, rfl, rfl, rfl, ?_, ?_, rfl, rfl⟩
  · unfold gormQueryBuilder.Limit
    split <;> rfl
  · unfold gormQueryBuilder.Offset
    split <;> rfl

/-- Claim C4 (amended): Create with zero entities is a no-op with no error
and no backend call; with one non-nil entity it takes the single-entity
path bypassing the bridge; with one nil entity it fails with the index-less
validation error "model cannot be nil"; with more than one entity it
routes through the bridge conversion, and a nil at the first offending
position i is reported as the wrapped error naming index i. -/
theorem claim_C4 (r : repository) (models : List ModelIface) (m : ModelIface) (i : Nat) :
    (repository.Create r [] = .ok CreateAction.noOp) ∧
    (m ≠ ModelIface.nil → repository.Create r [m] = .ok (CreateAction.createSingle m)) ∧
    (repository.Create r [ModelIface.nil] = .error GoErr.nilModel) ∧
    (2 ≤ models.length →
      (∀ e, repositoryConvertModelsToSlice r models = .error e →
        repository.Create r models = .error (GoErr.convertFailed e)) ∧
      (∀ s, repositoryConvertModelsToSlice r models = .ok s →
        repository.Create r models = .ok (CreateAction.createSlice (getModelType r.mdl) s))) ∧
    (2 ≤ models.length → i < models.length →
      models.getD i ModelIface.nil = ModelIface.nil →
      (∀ j, j < i → offends (getModelType r.mdl) (models.getD j ModelIface.nil) = false) →
      repository.Create r models = .error (GoErr.convertFailed (GoErr.nilModelAt i))) := by
  have hbatch : 2 ≤ models.length →
      (∀ e, repositoryConvertModelsToSlice r models = .error e →
        repository.Create r models = .error (GoErr.convertFailed e)) ∧
      (∀ s, repositoryConvertModelsToSlice r models = .ok s →
        repository.Create r models = .ok (CreateAction.createSlice (getModelType r.mdl) s)) := by
    intro h2
    match models, h2 with
    | a :: b :: rest, _ =>
      have hopt : optimizeCreateOperation (a :: b :: rest) = (false, none, none) := rfl
      constructor
      · intro e he
        simp [repository.Create, hopt, he]
      · intro s hs
        simp [repository.Create, hopt, hs]
  refine ⟨rfl, ?_, rfl, hbatch, ?_⟩
  · intro hm
    have hopt : optimizeCreateOperation [m] = (true, some m, none) := by
      simp [optimizeCreateOperation, hm]
    simp [repository.Create, hopt]
  · intro h2 hi hnil hpre
    have hconv : repositoryConvertModelsToSlice r models = .error (GoErr.nilModelAt i) := by
      have h := convertModelsToSlice_first_err models (GoType.struct (getModelType r.mdl)) i hi
        (by rw [hnil]; rfl) hpre
      rw [hnil] at h
      exact h
    exact (hbatch h2).1 _ hconv

/-- Counterexample to C4 as stated: a single nil entity fails with the
error "model cannot be nil", which names no index at all (in particular
not index 0), so "a nil entity at any position fails with a validation
error naming that position's index" is false for the one-entity case. -/
theorem claim_C4_counterexample :
    repository.Create r0 [ModelIface.nil] = .error GoErr.nilModel ∧
    GoErr.namesIndex GoErr.nilModel 0 = false ∧
    (∀ i, GoErr.nilModel ≠ GoErr.nilModelAt i) :=
  ⟨rfl, rfl, fun _ h => GoErr.noConfusion h⟩

/-- Witness for C4 at concrete inputs: the single-entity fast path, and the
two-entity list with a nil at index 1 reported through the bridge. -/
theorem claim_C4_witness :
    repository.Create r0 [ModelIface.ptr u0] =
      .ok (CreateAction.createSingle (ModelIface.ptr u0)) ∧
    repository.Create r0 [ModelIface.ptr u0, ModelIface.nil] =
      .error (GoErr.convertFailed (GoErr.nilModelAt 1)) := by
  constructor
  · exact (claim_C4 r0 [] (ModelIface.ptr u0) 0).2.1 (by decide)
  · exact (claim_C4 r0 [ModelIface.ptr u0, ModelIface.nil] ModelIface.nil 1).2.2.2.2
      (by decide) (by decide) (by decide)
      (fun j hj => by rw [Nat.lt_one_iff] at hj; subst hj; decide)

/-- Claim C5 (amended): CreateInBatches with an empty entity list is a
no-op returning no error for every batch size - the empty-list check runs
first - and with a non-empty list a non-positive batch size fails with the
validation error "batch size must be positive". -/
theorem claim_C5 (r : repository) (models : List ModelIface) (batchSize : Int) :
    (models = [] → repository.CreateInBatches r models batchSize = .ok BatchAction.noOp) ∧
    (models ≠ [] → batchSize ≤ 0 →
      repository.CreateInBatches r models batchSize = .error GoErr.batchSizeNotPositive) := by
  constructor
  · intro h
    subst h
    rfl
  · intro hne hbs
    unfold repository.CreateInBatches
    rw [if_neg hne, if_pos hbs]

/-- Counterexample to C5 as stated: with an empty list and batch size 0
both of the claim's rules apply at once, and the code returns the no-op,
not the "batch size must be positive" validation error: the rule
"batchSize <= 0 fails" does not hold unconditionally. -/
theorem claim_C5_counterexample :
    repository.CreateInBatches r0 [] 0 = .ok BatchAction.noOp ∧
    repository.CreateInBatches r0 [] 0 ≠ .error GoErr.batchSizeNotPositive :=
  ⟨rfl, fun h => Except.noConfusion h⟩

/-- Witness for C5 at concrete inputs: the empty no-op with a positive
batch size, and the non-empty list rejected for batch size 0. -/
theorem claim_C5_witness :
    repository.CreateInBatches r0 [] 5 = .ok BatchAction.noOp ∧
    repository.CreateInBatches r0 [ModelIface.ptr u0] 0 =
      .error GoErr.batchSizeNotPositive :=
  ⟨(claim_C5 r0 [] 5).1 rfl, (claim_C5 r0 [ModelIface.ptr u0] 0).2 (by decide) (by decide)⟩

/-- Claim C6: for the two registries, registering under an empty name or
registering a nil implementation panics immediately (a configuration
error) leaving the registry unchanged; Get after Register returns the
registered implementation; re-registering under an existing name
overwrites (last write wins); Get on an unknown name returns a lookup
error naming the missing key; and List (exposed by the query-builder
registry; the adapter registry has no List operation) returns the
registered names with no duplicates, for every sequence of Register calls
from the fresh registry. -/
theorem claim_C6 (stQ : List (String × QueryBuilderFactory)) (stA : List (String × DBAdapterB))
    (n : String) (f g : QueryBuilderFactory) (a b : DBAdapterB)
    (ops : List (String × Option QueryBuilderFactory)) :
    ((qbRegistryRegister stQ "" (some f)).2.isSome ∧
      (qbRegistryRegister stQ "" (some f)).1 = stQ) ∧
    ((qbRegistryRegister stQ n none).2.isSome ∧
      (qbRegistryRegister stQ n none).1 = stQ) ∧
    (n ≠ "" → qbRegistryGet (qbRegistryRegister stQ n (some f)).1 n = .ok f) ∧
    (n ≠ "" →
      qbRegistryGet (qbRegistryRegister (qbRegistryRegister stQ n (some f)).1 n (some g)).1 n =
        .ok g) ∧
    (mapLookup stQ n = none →
      qbRegistryGet stQ n = .error ("query builder factory not found for adapter: " ++ n)) ∧
    (qbRegistryList (qbApplyRegisters ops)).Nodup ∧
    ((RegisterAdapter stA none [n]).2.isSome ∧ (RegisterAdapter stA none [n]).1 = stA) ∧
    ((RegisterAdapter stA (some a) [""]).2.isSome ∧
      (RegisterAdapter stA (some a) [""]).1 = stA) ∧
    (n ≠ "" → GetAdapter (RegisterAdapter stA (some a) [n]).1 n = .ok a) ∧
    (n ≠ "" →
      GetAdapter (RegisterAdapter (RegisterAdapter stA (some a) [n]).1 (some b) [n]).1 n =
        .ok b) ∧
    (mapLookup stA n = none →
      GetAdapter stA n =
        .error ("unknown database adapter \"" ++ n ++ "\" (is the adapter package imported?)")) := by
  have hregQ : ∀ (st : List (String × QueryBuilderFactory)) (h : Option QueryBuilderFactory),
      n ≠ "" → ∀ x, h = some x → (qbRegistryRegister st n h).1 = mapInsert st n x := by
    intro st h hn x hx
    subst hx
    unfold qbRegistryRegister
    rw [if_neg hn]
  have hregA : ∀ (st : List (String × DBAdapterB)) (x : DBAdapterB),
      n ≠ "" → (RegisterAdapter st (some x) [n]).1 = mapInsert st n x := by
    intro st x hn
    simp [RegisterAdapter, registerAdapterLoop, hn]
  refine ⟨⟨rfl, rfl⟩, ?_, ?_, ?_, ?_, ?_, ⟨rfl, rfl⟩, ⟨rfl, rfl⟩, ?_, ?_, ?_⟩
  · unfold qbRegistryRegister
    split
    · exact ⟨rfl, rfl⟩
    · exact ⟨rfl, rfl⟩
  · intro hn
    rw [hregQ stQ (some f) hn f rfl]
    unfold qbRegistryGet
    rw [mapLookup_mapInsert_self]
  · intro hn
    rw [hregQ _ (some g) hn g rfl]
    unfold qbRegistryGet
    rw [mapLookup_mapInsert_self]
  · intro h
    unfold qbRegistryGet
    rw [h]
  · exact qbApplyRegisters_aux ops [] (by simp)
  · intro hn
    rw [hregA stA a hn]
    unfold GetAdapter
    rw [mapLookup_mapInsert_self]
  · intro hn
    rw [hregA _ b hn]
    unfold GetAdapter
    rw [mapLookup_mapInsert_self]
  · intro h
    unfold GetAdapter
    rw [h]

/-- Witness for C6 at concrete inputs: registration then lookup in both
registries, an overwrite, and a lookup error naming the missing key. -/
theorem claim_C6_witness :
    qbRegistryGet (qbRegistryRegister [] "gorm" (some ⟨1⟩)).1 "gorm" = .ok ⟨1⟩ ∧
    qbRegistryGet
        (qbRegistryRegister (qbRegistryRegister [] "gorm" (some ⟨1⟩)).1 "gorm" (some ⟨2⟩)).1
        "gorm" = .ok ⟨2⟩ ∧
    GetAdapter (RegisterAdapter [] (some A1) ["gorm:mysql"]).1 "gorm:mysql" = .ok A1 ∧
    qbRegistryGet [] "nope" =
      .error ("query builder factory not found for adapter: " ++ "nope") := by
  obtain ⟨-, -, h3, h4, -, -, -, -, -, -, -⟩ :=
    claim_C6 [] [] "gorm" ⟨1⟩ ⟨2⟩ A1 A1 []
  obtain ⟨-, -, -, -, -, -, -, -, h9, -, -⟩ :=
    claim_C6 [] [] "gorm:mysql" ⟨1⟩ ⟨2⟩ A1 A1 []
  obtain ⟨-, -, -, -, h5, -, -, -, -, -, -⟩ :=
    claim_C6 [] [] "nope" ⟨1⟩ ⟨2⟩ A1 A1 []
  exact ⟨h3 (by decide), h4 (by decide), h9 (by decide), h5 rfl⟩

/-- Claim C7 (amended): the direction argument is first trimmed of
surrounding white space; a trimmed direction that is not case-insensitively
ASC or DESC is normalized to ASC; an invalid column leaves the handle (and
hence its ordering clause) unchanged; a valid column with a trimmed
direction case-insensitively equal to ASC or DESC adds the ordering clause
consisting of the column and the upper-cased direction. -/
theorem claim_C7 (tx : GormDB) (column direction : String) :
    (eqCaseInsensitive (goTrimSpace direction) "ASC" = false →
      eqCaseInsensitive (goTrimSpace direction) "DESC" = false →
      validateOrderDirection direction "ASC" = "ASC") ∧
    (validateColumnName column = false → applyOrderBy tx column direction = tx) ∧
    (validateColumnName column = true →
      eqCaseInsensitive (goTrimSpace direction) "ASC" = true →
      applyOrderBy tx column direction = tx.Order (column ++ " " ++ "ASC")) ∧
    (validateColumnName column = true →
      eqCaseInsensitive (goTrimSpace direction) "DESC" = true →
      applyOrderBy tx column direction = tx.Order (column ++ " " ++ "DESC")) := by
  refine ⟨?_, ?_, ?_, ?_⟩
  · intro h1 h2
    have h1' : goToUpper (goTrimSpace direction) ≠ "ASC" := by
      simpa [eqCaseInsensitive] using h1
    have h2' : goToUpper (goTrimSpace direction) ≠ "DESC" := by
      simpa [eqCaseInsensitive] using h2
    unfold validateOrderDirection
    simp [h1', h2']
  · intro h
    unfold applyOrderBy
    simp [h]
  · intro hc hd
    have hd' : goToUpper (goTrimSpace direction) = "ASC" := by
      simpa [eqCaseInsensitive] using hd
    unfold applyOrderBy validateOrderDirection
    simp [hc, hd']
  · intro hc hd
    have hd' : goToUpper (goTrimSpace direction) = "DESC" := by
      simpa [eqCaseInsensitive] using hd
    unfold applyOrderBy validateOrderDirection
    simp [hc, hd']

/-- Counterexample to C7 as stated: the direction " desc" (leading space)
is not case-insensitively "ASC" or "DESC", yet the code trims it first and
normalizes it to "DESC", not "ASC"; with a valid column the ordering
clause added is "a DESC". -/
theorem claim_C7_counterexample :
    eqCaseInsensitive " desc" "ASC" = false ∧
    eqCaseInsensitive " desc" "DESC" = false ∧
    validateOrderDirection " desc" "ASC" = "DESC" ∧
    validateOrderDirection " desc" "ASC" ≠ "ASC" ∧
    applyOrderBy db0 "a" " desc" = GormDB.Order db0 "a DESC" := by
  refine ⟨by decide, by decide, by decide, by decide, by decide⟩

/-- Witness for C7 at concrete inputs: an arbitrary direction defaults to
ASC; an invalid column (leading digit) leaves the handle unchanged; a
dot-qualified valid column with direction " Desc " produces the DESC
ordering clause. -/
theorem claim_C7_witness :
    validateOrderDirection "bogus" "ASC" = "ASC" ∧
    applyOrderBy db0 "1col" "DESC" = db0 ∧
    applyOrderBy db0 "users.name" " Desc " =
      GormDB.Order db0 ("users.name" ++ " " ++ "DESC") := by
  refine ⟨(claim_C7 db0 "a" "bogus").1 (by decide) (by decide),
    (claim_C7 db0 "1col" "DESC").2.1 (by decide),
    (claim_C7 db0 "users.name" " Desc ").2.2.2 (by decide) (by decide)⟩

/-- Claim C8: Limit and Offset on the repository and on the query builder
leave the builder unchanged for a negative argument and set the
corresponding clause to exactly the argument for a non-negative one. -/
theorem claim_C8 (r : repository) (q : gormQueryBuilder) (n : Int) :
    (repository.Limit r n).2 =
      (if n < 0 then r else { r with db := { r.db with limitClause := some n } }) ∧
    (repository.Offset r n).2 =
      (if n < 0 then r else { r with db := { r.db with offsetClause := some n } }) ∧
    (gormQueryBuilder.Limit q n).2 =
      (if n < 0 then q else { q with db := { q.db with limitClause := some n } }) ∧
    (gormQueryBuilder.Offset q n).2 =
      (if n < 0 then q else { q with db := { q.db with offsetClause := some n } }) := by
  refine ⟨?_, ?_, ?_, ?_⟩
  · unfold repository.Limit validateAndApplyLimit
    split <;> rfl
  · unfold repository.Offset validateAndApplyOffset
    split <;> rfl
  · unfold gormQueryBuilder.Limit
    split <;> rfl
  · unfold gormQueryBuilder.Offset
    split <;> rfl

/-- Claim C9: whenever the resolved adapter's Connect succeeds and the
subsequent ping of the resulting connection fails, the connect facade
closes that connection exactly once (the event trace is exactly one Close
of that connection) and returns the ping error. -/
theorem claim_C9 (registry : List (String × DBAdapterB)) (cfg : Config)
    (opts : List (Config → Config)) (a : DBAdapterB) (e : String)
    (hval : (applyOptions cfg opts).Validate = none)
    (hres : resolveAdapter registry (applyOptions cfg opts) = .ok a)
    (hconn : a.connectErr = none)
    (hping : a.conn.pingErr = some e) :
    dbConnect registry cfg opts =
      (.error (NewConnectionPingError e), [ConnEvent.closed a.conn.cid]) := by
  unfold dbConnect
  rw [hval, hres]
  simp only [hconn, hping]

/-- Witness for C9 at a concrete input: an injected adapter whose
connection fails its ping; Connect returns the ping error and the trace
holds exactly the one Close of connection 7. -/
theorem claim_C9_witness :
    dbConnect [] { Driver := "gorm:sqlite", DSN := "file::memory:", Adapter := some (.valid A2) }
        [] =
      (.error (NewConnectionPingError "ping boom"), [ConnEvent.closed 7]) := by
  exact claim_C9 []
    { Driver := "gorm:sqlite", DSN := "file::memory:", Adapter := some (.valid A2) }
    [] A2 "ping boom" rfl rfl rfl rfl

/-- Claim C10: RegisterAdapter with several alias names is not atomic on
failure: the nil-adapter and empty-name-list panics happen before any
insertion and leave the registry unchanged, but an empty string at
position i panics only after the names at positions before i have been
inserted. -/
theorem claim_C10 (stA : List (String × DBAdapterB)) (a : DBAdapterB) (names : List String)
    (pre rest : List String) :
    (RegisterAdapter stA none names =
      (stA, some "cannot register a nil database adapter")) ∧
    (RegisterAdapter stA (some a) [] =
      (stA, some "cannot register adapter without at least one name")) ∧
    ("" ∉ pre → RegisterAdapter stA (some a) (pre ++ "" :: rest) =
      (pre.foldl (fun s n => mapInsert s n a) stA,
       some "cannot register adapter with an empty name")) := by
  refine ⟨rfl, rfl, fun hpre => ?_⟩
  have hne : ¬ (pre ++ "" :: rest = []) := by simp
  simp only [RegisterAdapter, if_neg hne]
  exact registerAdapterLoop_partial a rest pre stA hpre

/-- Witness for C10 at a concrete input: aliases ["x", "", "y"] panic at
the empty name with "x" already inserted. -/
theorem claim_C10_witness :
    RegisterAdapter [] (some A1) (["x"] ++ "" :: ["y"]) =
      ([("x", A1)], some "cannot register adapter with an empty name") := by
  exact (claim_C10 [] A1 [] ["x"] ["y"]).2.2 (by decide)
